import Mathlib

/-!
A verification development for the spec-driven consumer code generator.

The definitions below are a shallow embedding of the generator's core:

* the operation extractor and return-type inference of `ConsumerGenerator`
  (`extractOperations`, `inferReturnType`, `schemaToType`, `generateForOperations`);
* the per-language emitters (`generateForLanguage` and the Java / TypeScript /
  Python template builders), together with the runtime semantics of the emitted
  Java query-building and status-handling code (`emittedQueryString`,
  `sendRequestStatusHandling`);
* the intent matcher / task planner of the `plan` command
  (`analyzeIntentAndCreateTasks` and its matching loop);
* the guardrail engine (`validateFile`, `validate`, the rule table
  `guardrailRules` and hand-modelled semantics of its regular expressions).

JavaScript runtime behaviour is modelled explicitly: objects that the source
iterates with `Object.entries` become association lists in insertion
(document) order, optional / falsy fields become `Option` values with empty
strings treated as falsy where the source uses truthiness, and the string
operations used by the source (`toLowerCase`, `split`, `trim`, `includes`,
`startsWith`, `endsWith`, …) are given list-of-character implementations.
-/

namespace SpecKit

/-! ## JavaScript-style string primitives -/

/-- Character count of a string (JS `String.length`; all inputs here are ASCII,
where UTF-16 code-unit count and character count agree). -/
def jsLength (s : String) : Nat := s.toList.length

/-- JS `String.toLowerCase` (ASCII range, which is all the source ever feeds it). -/
def jsToLower (s : String) : String := String.mk (s.toList.map Char.toLower)

/-- JS `String.toUpperCase` (ASCII range). -/
def jsToUpper (s : String) : String := String.mk (s.toList.map Char.toUpper)

/-- Match a literal sequence of characters at the head of a list, returning the
remainder on success. -/
def stripLit : List Char → List Char → Option (List Char)
  | [], l => some l
  | _ :: _, [] => none
  | c :: cs, d :: l => if c = d then stripLit cs l else none

/-- JS `String.startsWith`. -/
def jsStartsWith (s pre : String) : Bool := (stripLit pre.toList s.toList).isSome

/-- JS `String.endsWith`. -/
def jsEndsWith (s suffix : String) : Bool :=
  (stripLit suffix.toList.reverse s.toList.reverse).isSome

/-- Try a matcher at every position of the character list (the search behaviour
of an unanchored JS regular expression or of `String.includes`). -/
def scanAny (p : List Char → Bool) : List Char → Bool
  | [] => false
  | c :: rest => p (c :: rest) || scanAny p rest

/-- JS `hay.includes(needle)` for a non-empty `needle`. -/
def hasSubstr (hay needle : String) : Bool :=
  scanAny (fun l => (stripLit needle.toList l).isSome) hay.toList

/-- JS whitespace trimming (`String.trim`). -/
def jsTrim (s : String) : String :=
  String.mk (((s.toList.dropWhile Char.isWhitespace).reverse.dropWhile
      Char.isWhitespace).reverse)

/-- Split a character list at every character satisfying `p`, keeping empty
segments (the behaviour of JS `split` with a single-character separator). -/
def splitListOnP (p : Char → Bool) : List Char → List (List Char)
  | [] => [[]]
  | c :: rest =>
    let r := splitListOnP p rest
    if p c then [] :: r
    else
      match r with
      | h :: t => (c :: h) :: t
      | [] => [[c]]

/-- JS `content.split('\n')`. -/
def jsSplitNl (s : String) : List String :=
  (splitListOnP (fun c => c = '\n') s.toList).map (fun l => String.mk l)

/-- Whitespace tokenisation of the intent text.  The source uses
`split(/\s+/)`, which collapses whitespace runs; splitting at every whitespace
character instead only adds empty tokens, and every consumer of the token list
guards with `word.length > 2` (or `> 3`), so empty tokens are inert. -/
def jsSplitWsTokens (s : String) : List String :=
  (splitListOnP Char.isWhitespace s.toList).map (fun l => String.mk l)

/-- The `/`-separated segments of a string (JS `str.split('/')`). -/
def refSegments (s : String) : List String :=
  (splitListOnP (fun c => c = '/') s.toList).map (fun l => String.mk l)

/-- JS `str.split('/').pop() || fallback`. -/
def jsLastSegmentOr (s fallback : String) : String :=
  match (refSegments s).getLast? with
  | some seg => if seg = "" then fallback else seg
  | none => fallback

/-- JS `value || fallback` on an optional string (empty string is falsy). -/
def jsOrDefault (value : Option String) (fallback : String) : String :=
  match value with
  | some s => if s = "" then fallback else s
  | none => fallback

/-- First value bound to `key` in an association list: JS property lookup
`obj[key]` on the objects the source indexes by string keys. -/
def jsProp {β : Type} (entries : List (String × β)) (key : String) : Option β :=
  match entries with
  | [] => none
  | e :: rest => if e.1 = key then some e.2 else jsProp rest key

/-- JS truthiness of the `operationId` field: the source skips an entry when
`!operation.operationId`, which is the case for a missing id or the empty
string. -/
def truthyId (o : Option String) : Option String :=
  match o with
  | some s => if s = "" then none else some s
  | none => none

/-! ## Data model (src/src/types/index.ts, restricted to the fields the
generator, planner and guardrails read) -/

/-- Subset of `SchemaObject` read by the generator: `type` and `$ref`
(field `ref` here; `$` is not a legal Lean name character). -/
structure Schema where
  type : Option String
  ref : Option String
deriving DecidableEq

/-- `Parameter`: `name`, `in` (field `location` here; `in` is a Lean keyword)
and `schema`.  The schema is optional because `schemaToType` guards against a
missing one. -/
structure Parameter where
  name : String
  location : String
  schema : Option Schema
deriving DecidableEq

/-- `MediaType`. -/
structure MediaType where
  schema : Option Schema
deriving DecidableEq

/-- `Response`: only the optional `content` map (media-type keyed, in document
order) is read. -/
structure ResponseObj where
  content : Option (List (String × MediaType))
deriving DecidableEq

/-- `Operation`.  `operationId` is `Option String` because the extractor and
planner both guard against entries lacking one; `requestBody` is modelled by
its presence (the source only ever tests `!!op.requestBody`). -/
structure Operation where
  operationId : Option String
  summary : Option String
  tags : List String
  parameters : List Parameter
  requestBody : Option Unit
  responses : List (String × ResponseObj)
deriving DecidableEq

/-- `info` object of the contract. -/
structure InfoObj where
  title : String
deriving DecidableEq

/-- A path item: HTTP-verb key → operation, in document (insertion) order,
as iterated by `Object.entries`. -/
abbrev PathItemEntries := List (String × Operation)

/-- `OpenAPISpec`: `info` plus the ordered `paths` map. -/
structure OpenAPISpec where
  info : InfoObj
  paths : List (String × PathItemEntries)
deriving DecidableEq

/-- Entry of `OperationContext.params`: `{name, type, in}` (field `location`
here for the source's `in`). -/
structure CtxParam where
  name : String
  type : String
  location : String
deriving DecidableEq

/-- `OperationContext`: the emitter-facing descriptor built by
`extractOperations`. -/
structure OperationContext where
  operationId : String
  method : String
  path : String
  summary : String
  hasBody : Bool
  hasParams : Bool
  params : List CtxParam
  returnType : String
deriving DecidableEq

/-- Supported target languages. -/
inductive SupportedLanguage where
  | java
  | typescript
  | python
deriving DecidableEq

/-- Naming context handed to the per-language renderers. -/
structure GenContext where
  packageName : String
  apiClassName : String
deriving DecidableEq

/-! ## ConsumerGenerator helpers (src/unnamed/part_000) -/

/-- `schemaToType`: contract schema → semantic type name. -/
def schemaToType (schema : Option Schema) : String :=
  match schema with
  | none => "any"
  | some s =>
    if s.type = some "integer" then "number"
    else if s.type = some "array" then "array"
    else
      match s.type with
      | some t => if t = "" then "any" else t
      | none => "any"

/-- `inferReturnType`: resolved from the `200`/`201` response (in that
preference order, via JS `||`), its `content`, the `application/json` media
type, and a truthy `$ref` whose trailing `/`-segment names the type. -/
def inferReturnType (op : Operation) : String :=
  let successResponse :=
    match jsProp op.responses "200" with
    | some r => some r
    | none => jsProp op.responses "201"
  match successResponse with
  | none => "void"
  | some r =>
    match r.content with
    | none => "void"
    | some content =>
      match jsProp content "application/json" with
      | none => "Object"
      | some mt =>
        match mt.schema with
        | none => "Object"
        | some sch =>
          match sch.ref with
          | some refStr =>
            if refStr = "" then "Object"
            else jsLastSegmentOr refStr "Object"
          | none => "Object"

/-- `deriveApiClassName`: strip non-alphanumerics from the contract title,
capitalise the first character, defaulting to `"Default"` when empty. -/
def deriveApiClassName (title : String) : String :=
  let cleaned := title.toList.filter (fun c =>
    ('a' ≤ c ∧ c ≤ 'z') ∨ ('A' ≤ c ∧ c ≤ 'Z') ∨ ('0' ≤ c ∧ c ≤ '9'))
  let capped :=
    match cleaned with
    | [] => []
    | c :: rest => c.toUpper :: rest
  if capped.isEmpty then "Default" else String.mk capped

/-- `toJavaType`. -/
def toJavaType (type : String) : String :=
  if type = "number" then "Integer"
  else if type = "string" then "String"
  else if type = "boolean" then "Boolean"
  else if type = "array" then "List<?>"
  else "Object"

/-- `toTypeScriptType`. -/
def toTypeScriptType (type : String) : String :=
  if type = "number" then "number"
  else if type = "string" then "string"
  else if type = "boolean" then "boolean"
  else if type = "array" then "any[]"
  else "any"

/-- `toPythonType`. -/
def toPythonType (type : String) : String :=
  if type = "number" then "int"
  else if type = "string" then "str"
  else if type = "boolean" then "bool"
  else if type = "array" then "list"
  else "any"

/-- `toSnakeCase`: insert `_` before each upper-case letter, lower-case
everything, drop one leading underscore. -/
def toSnakeCase (s : String) : String :=
  let expanded := s.toList.flatMap (fun c => if c.isUpper then ['_', c] else [c])
  let lowered := expanded.map Char.toLower
  let stripped :=
    match lowered with
    | '_' :: rest => rest
    | l => l
  String.mk stripped

/-! ## Operation extraction -/

/-- Build one `OperationContext` from a traversal entry with truthy id `oid`.
`summary` falls back to the id (JS `op.summary || op.operationId`),
`hasBody` is `!!op.requestBody`, `hasParams` is `params.length > 0`. -/
def mkContext (pathKey method oid : String) (op : Operation) : OperationContext :=
  let params := op.parameters.map (fun p =>
    { name := p.name, type := schemaToType p.schema, location := p.location })
  { operationId := oid
    method := jsToUpper method
    path := pathKey
    summary :=
      match op.summary with
      | some s => if s = "" then oid else s
      | none => oid
    hasBody := op.requestBody.isSome
    hasParams := !params.isEmpty
    params := params
    returnType := inferReturnType op }

/-- One step of the extraction loop body: skip entries whose `operationId` is
falsy, apply the optional id filter (`filterOperationIds.includes`), and push
the built descriptor. -/
def extractStep (filterOperationIds : Option (List String))
    (acc : List OperationContext) (entry : String × String × Operation) :
    List OperationContext :=
  match truthyId entry.2.2.operationId with
  | none => acc
  | some oid =>
    match filterOperationIds with
    | some fl =>
      if fl.contains oid then acc ++ [mkContext entry.1 entry.2.1 oid entry.2.2]
      else acc
    | none => acc ++ [mkContext entry.1 entry.2.1 oid entry.2.2]

/-- `extractOperations`: nested iteration over `spec.paths` entries and each
path item's verb entries, in document order, accumulating descriptors. -/
def extractOperations (spec : OpenAPISpec)
    (filterOperationIds : Option (List String)) : List OperationContext :=
  spec.paths.foldl (fun acc pi =>
    pi.2.foldl (fun a mo => extractStep filterOperationIds a (pi.1, mo.1, mo.2)) acc) []

/-- Document-traversal order flattened: `(pathKey, verb, operation)` triples. -/
def traversalEntries (spec : OpenAPISpec) : List (String × String × Operation) :=
  spec.paths.flatMap (fun pi => pi.2.map (fun mo => (pi.1, mo.1, mo.2)))

/-- The truthy operation ids in document-traversal order (the well-formed
operations of the contract). -/
def wellFormedIds (spec : OpenAPISpec) : List String :=
  (traversalEntries spec).filterMap (fun t => truthyId t.2.2.operationId)

/-- What `extractStep` contributes for a single traversal entry. -/
def ctxOf (filterOperationIds : Option (List String))
    (entry : String × String × Operation) : Option OperationContext :=
  match truthyId entry.2.2.operationId with
  | none => none
  | some oid =>
    match filterOperationIds with
    | some fl =>
      if fl.contains oid then some (mkContext entry.1 entry.2.1 oid entry.2.2)
      else none
    | none => some (mkContext entry.1 entry.2.1 oid entry.2.2)

/-! ## Java emission -/

/-- One inert operation call comment in the generated Java `Application`. -/
def javaOperationCall (op : OperationContext) : String :=
  let params := String.intercalate ", "
    ((op.params.filter (fun p => p.location = "path")).map
      (fun p => "\"example-" ++ p.name ++ "\""))
  "        // " ++ op.summary ++ "\n        // " ++
    (if op.returnType ≠ "void" then "var result = " else "") ++
    "apiClient." ++ op.operationId ++ "(" ++ params ++ ");"

/-- `generateJavaApplication`: the runnable Java entry point. -/
def generateJavaApplication (ops : List OperationContext) (_ctx : GenContext) : String :=
  let operationCalls := String.intercalate "\n\n" (ops.map javaOperationCall)
  "/**\n * REST Client Application\n * \n * Generated by Origo-Spec-Kit from OpenAPI specification.\n * This code contains complete HTTP client implementation.\n */\npackage client;\n\npublic class Application \x7b\n    \n    private final ApiClient apiClient;\n    \n    public Application(String baseUrl) \x7b\n        this.apiClient = new ApiClient(baseUrl);\n    \x7d\n    \n    public static void main(String[] args) \x7b\n        String baseUrl = args.length > 0 ? args[0] : \"http://localhost:3000/api/v1\";\n        Application app = new Application(baseUrl);\n        app.run();\n    \x7d\n    \n    public void run() \x7b\n        System.out.println(\"REST Client Application Started\");\n        System.out.println(\"Base URL: \" + apiClient.getBaseUrl());\n        System.out.println();\n        \n        try \x7b\n            // Available operations:\n"
    ++ operationCalls ++
    "\n            \n            System.out.println();\n            System.out.println(\"REST Client Application Finished\");\n        \x7d catch (Exception e) \x7b\n            System.err.println(\"Error: \" + e.getMessage());\n            e.printStackTrace();\n        \x7d\n    \x7d\n    \n    public ApiClient getApiClient() \x7b\n        return apiClient;\n    \x7d\n\x7d\n"

/-- One generated Java client method (body of the `ops.map` callback in
`generateJavaService`): path parameters become `String` arguments, query
parameters use the mapped Java type, a body becomes `Object requestBody`;
the path template is rewritten with `.replace`, query parameters are appended
conditionally (the `i`-th declared one prefixed with `""` when `i = 0` and
`"&"` otherwise), and the built path is dispatched through `sendRequest`. -/
def javaMethodFor (op : OperationContext) : String :=
  let pathParams := op.params.filter (fun p => p.location = "path")
  let queryParams := op.params.filter (fun p => p.location = "query")
  let methodParams :=
    pathParams.map (fun p => "String " ++ p.name) ++
    queryParams.map (fun p => toJavaType p.type ++ " " ++ p.name) ++
    (if op.hasBody then ["Object requestBody"] else [])
  let paramList := String.intercalate ", " methodParams
  let pathCode := "String path = \"" ++ op.path ++ "\"" ++
    String.join (pathParams.map (fun p =>
      ".replace(\"\x7b" ++ p.name ++ "\x7d\", " ++ p.name ++ ")")) ++ ";"
  let queryCode :=
    if queryParams.length > 0 then
      "\n        StringBuilder query = new StringBuilder();\n" ++
      String.intercalate "\n" (queryParams.enum.map (fun ip =>
        "        if (" ++ ip.2.name ++ " != null) \x7b\n            query.append(" ++
        (if ip.1 = 0 then "\"\"" else "\"&\"") ++ ").append(\"" ++ ip.2.name ++
        "=\").append(" ++ ip.2.name ++ ");\n        \x7d")) ++
      "\n        if (query.length() > 0) \x7b\n            path += \"?\" + query.toString();\n        \x7d"
    else ""
  let returnStatement :=
    if op.returnType ≠ "void" then
      "return sendRequest(\"" ++ op.method ++ "\", path, " ++
        (if op.hasBody then "requestBody" else "null") ++ ");"
    else
      "sendRequest(\"" ++ op.method ++ "\", path, " ++
        (if op.hasBody then "requestBody" else "null") ++ ");\n        return;"
  "\n    /**\n     * " ++ op.summary ++ "\n     * " ++ op.method ++ " " ++ op.path ++
    "\n     */\n    public " ++ (if op.returnType = "void" then "void" else "String") ++
    " " ++ op.operationId ++ "(" ++ paramList ++ ") throws Exception \x7b\n        " ++
    pathCode ++ queryCode ++ "\n        " ++ returnStatement ++ "\n    \x7d"

/-- `generateJavaService`: the full `ApiClient` class around the per-operation
methods. -/
def generateJavaService (ops : List OperationContext) (_ctx : GenContext) : String :=
  let methods := String.intercalate "\n" (ops.map javaMethodFor)
  "/**\n * REST API Client\n * \n * Generated by Origo-Spec-Kit from OpenAPI specification.\n * Complete HTTP client implementation using Java HttpClient.\n */\npackage client;\n\nimport java.net.URI;\nimport java.net.http.HttpClient;\nimport java.net.http.HttpRequest;\nimport java.net.http.HttpResponse;\nimport java.time.Duration;\nimport com.google.gson.Gson;\nimport com.google.gson.GsonBuilder;\n\npublic class ApiClient \x7b\n    \n    private final String baseUrl;\n    private final HttpClient httpClient;\n    private final Gson gson;\n    \n    public ApiClient(String baseUrl) \x7b\n        this.baseUrl = baseUrl.endsWith(\"/\") ? baseUrl.substring(0, baseUrl.length() - 1) : baseUrl;\n        this.httpClient = HttpClient.newBuilder()\n            .connectTimeout(Duration.ofSeconds(30))\n            .build();\n        this.gson = new GsonBuilder().setPrettyPrinting().create();\n    \x7d\n    \n    public String getBaseUrl() \x7b\n        return baseUrl;\n    \x7d\n    \n    /**\n     * Send HTTP request and return response body\n     */\n    private String sendRequest(String method, String path, Object body) throws Exception \x7b\n        String url = baseUrl + path;\n        \n        HttpRequest.Builder requestBuilder = HttpRequest.newBuilder()\n            .uri(URI.create(url))\n            .timeout(Duration.ofSeconds(30))\n            .header(\"Content-Type\", \"application/json\")\n            .header(\"Accept\", \"application/json\");\n        \n        HttpRequest.BodyPublisher bodyPublisher = body != null \n            ? HttpRequest.BodyPublishers.ofString(gson.toJson(body))\n            : HttpRequest.BodyPublishers.noBody();\n        \n        switch (method.toUpperCase()) \x7b\n            case \"GET\":\n                requestBuilder.GET();\n                break;\n            case \"POST\":\n                requestBuilder.POST(bodyPublisher);\n                break;\n            case \"PUT\":\n                requestBuilder.PUT(bodyPublisher);\n                break;\n            case \"DELETE\":\n                requestBuilder.DELETE();\n                break;\n            case \"PATCH\":\n                requestBuilder.method(\"PATCH\", bodyPublisher);\n                break;\n            default:\n                throw new IllegalArgumentException(\"Unsupported HTTP method: \" + method);\n        \x7d\n        \n        HttpResponse<String> response = httpClient.send(\n            requestBuilder.build(),\n            HttpResponse.BodyHandlers.ofString()\n        );\n        \n        int statusCode = response.statusCode();\n        String responseBody = response.body();\n        \n        if (statusCode >= 200 && statusCode < 300) \x7b\n            return responseBody;\n        \x7d else if (statusCode == 204) \x7b\n            return null;\n        \x7d else \x7b\n            throw new RuntimeException(\"HTTP \" + statusCode + \": \" + responseBody);\n        \x7d\n    \x7d\n"
    ++ methods ++
    "\n    \n    /**\n     * Parse JSON response to object\n     */\n    public <T> T parseResponse(String json, Class<T> clazz) \x7b\n        return gson.fromJson(json, clazz);\n    \x7d\n\x7d\n"

/-- `generateJavaPom`: fixed build manifest. -/
def generateJavaPom (_ctx : GenContext) : String :=
  "<?xml version=\"1.0\" encoding=\"UTF-8\"?>\n<project xmlns=\"http://maven.apache.org/POM/4.0.0\"\n         xmlns:xsi=\"http://www.w3.org/2001/XMLSchema-instance\"\n         xsi:schemaLocation=\"http://maven.apache.org/POM/4.0.0 http://maven.apache.org/xsd/maven-4.0.0.xsd\">\n    <modelVersion>4.0.0</modelVersion>\n    \n    <groupId>client</groupId>\n    <artifactId>rest-client</artifactId>\n    <version>1.0.0</version>\n    <packaging>jar</packaging>\n    \n    <name>REST API Client</name>\n    <description>Generated REST client from OpenAPI specification</description>\n    \n    <properties>\n        <maven.compiler.source>17</maven.compiler.source>\n        <maven.compiler.target>17</maven.compiler.target>\n        <project.build.sourceEncoding>UTF-8</project.build.sourceEncoding>\n    </properties>\n    \n    <dependencies>\n        <!-- JSON processing -->\n        <dependency>\n            <groupId>com.google.code.gson</groupId>\n            <artifactId>gson</artifactId>\n            <version>2.10.1</version>\n        </dependency>\n    </dependencies>\n    \n    <build>\n        <plugins>\n            <plugin>\n                <groupId>org.apache.maven.plugins</groupId>\n                <artifactId>maven-compiler-plugin</artifactId>\n                <version>3.11.0</version>\n            </plugin>\n            <plugin>\n                <groupId>org.codehaus.mojo</groupId>\n                <artifactId>exec-maven-plugin</artifactId>\n                <version>3.1.0</version>\n                <configuration>\n                    <mainClass>client.Application</mainClass>\n                </configuration>\n            </plugin>\n        </plugins>\n    </build>\n</project>\n"

/-! ## TypeScript emission -/

/-- `generateTypeScriptIndex`. -/
def generateTypeScriptIndex (ops : List OperationContext) (_ctx : GenContext) : String :=
  "/**\n * Generated Consumer Application\n * Uses the generated SDK - no manual HTTP calls allowed.\n */\n\nimport \x7b ApiService \x7d from \x27./api-service\x27;\n\nasync function main() \x7b\n  const apiService = new ApiService(\x27http://localhost:8080/api/v1\x27);\n  \n  console.log(\x27Consumer Application Started\x27);\n  \n  // Available operations:\n"
    ++ String.intercalate "\n" (ops.map (fun op =>
        "  // await apiService." ++ op.operationId ++ "(...);")) ++
    "\n  \n  console.log(\x27Consumer Application Finished\x27);\n\x7d\n\nmain().catch(console.error);\n"

/-- One generated TypeScript facade method. -/
def tsMethodFor (op : OperationContext) : String :=
  let params := String.intercalate ", "
    (op.params.map (fun p => p.name ++ ": " ++ toTypeScriptType p.type))
  "\n  /**\n   * " ++ op.summary ++ "\n   * " ++ op.method ++ " " ++ op.path ++
    "\n   */\n  async " ++ op.operationId ++ "(" ++ params ++ "): Promise<" ++
    op.returnType ++ "> \x7b\n    return this.api." ++ op.operationId ++ "(" ++
    String.intercalate ", " (op.params.map (fun p => p.name)) ++ ");\n  \x7d"

/-- `generateTypeScriptService`. -/
def generateTypeScriptService (ops : List OperationContext) (ctx : GenContext) : String :=
  let methods := String.intercalate "\n" (ops.map tsMethodFor)
  "/**\n * API Service - Facade for SDK operations\n */\n\nimport \x7b Configuration, "
    ++ ctx.apiClassName ++
    "Api \x7d from \x27../sdk\x27;\n\nexport class ApiService \x7b\n  private api: "
    ++ ctx.apiClassName ++
    "Api;\n  \n  constructor(basePath: string) \x7b\n    const config = new Configuration(\x7b basePath \x7d);\n    this.api = new "
    ++ ctx.apiClassName ++ "Api(config);\n  \x7d\n" ++ methods ++ "\n\x7d\n"

/-- `generateTypeScriptPackage`: fixed package manifest. -/
def generateTypeScriptPackage (_ctx : GenContext) : String :=
  "\x7b\n  \"name\": \"api-consumer\",\n  \"version\": \"1.0.0\",\n  \"main\": \"dist/index.js\",\n  \"scripts\": \x7b\n    \"build\": \"tsc\",\n    \"start\": \"node dist/index.js\"\n  \x7d,\n  \"dependencies\": \x7b\n    \"@sdk/client\": \"file:../sdk\"\n  \x7d,\n  \"devDependencies\": \x7b\n    \"typescript\": \"^5.0.0\"\n  \x7d\n\x7d\n"

/-! ## Python emission -/

/-- `generatePythonMain`. -/
def generatePythonMain (ops : List OperationContext) (_ctx : GenContext) : String :=
  "\"\"\"\nGenerated Consumer Application\nUses the generated SDK - no manual HTTP calls allowed.\n\"\"\"\n\nfrom api_service import ApiService\n\n\ndef main():\n    api_service = ApiService(\"http://localhost:8080/api/v1\")\n    \n    print(\"Consumer Application Started\")\n    \n    # Available operations:\n"
    ++ String.intercalate "\n" (ops.map (fun op =>
        "    # api_service." ++ toSnakeCase op.operationId ++ "(...)")) ++
    "\n    \n    print(\"Consumer Application Finished\")\n\n\nif __name__ == \"__main__\":\n    main()\n"

/-- One generated Python facade method. -/
def pyMethodFor (op : OperationContext) : String :=
  let params := String.intercalate ", "
    (op.params.map (fun p => toSnakeCase p.name ++ ": " ++ toPythonType p.type))
  "\n    def " ++ toSnakeCase op.operationId ++ "(self" ++
    (if params = "" then "" else ", " ++ params) ++
    "):\n        \"\"\"\n        " ++ op.summary ++ "\n        " ++ op.method ++ " " ++
    op.path ++ "\n        \"\"\"\n        return self.api." ++
    toSnakeCase op.operationId ++ "(" ++
    String.intercalate ", " (op.params.map (fun p => toSnakeCase p.name)) ++ ")"

/-- `generatePythonService`. -/
def generatePythonService (ops : List OperationContext) (ctx : GenContext) : String :=
  let methods := String.intercalate "\n" (ops.map pyMethodFor)
  "\"\"\"\nAPI Service - Facade for SDK operations\nAll API interactions MUST go through this service.\n\"\"\"\n\nfrom sdk_client import ApiClient, "
    ++ ctx.apiClassName ++
    "Api\n\n\nclass ApiService:\n    def __init__(self, base_path: str):\n        client = ApiClient()\n        client.configuration.host = base_path\n        self.api = "
    ++ ctx.apiClassName ++ "Api(client)\n" ++ methods ++ "\n"

/-! ## Multi-target emission -/

/-- `generateForLanguage`: the per-language file map (relative path → content),
in the insertion order of the source's `files` object. -/
def generateForLanguage (language : SupportedLanguage)
    (operations : List OperationContext) (context : GenContext) :
    List (String × String) :=
  match language with
  | .java =>
      [("src/main/java/Application.java", generateJavaApplication operations context),
       ("src/main/java/ApiService.java", generateJavaService operations context),
       ("pom.xml", generateJavaPom context)]
  | .typescript =>
      [("src/index.ts", generateTypeScriptIndex operations context),
       ("src/api-service.ts", generateTypeScriptService operations context),
       ("package.json", generateTypeScriptPackage context)]
  | .python =>
      [("main.py", generatePythonMain operations context),
       ("api_service.py", generatePythonService operations context),
       ("requirements.txt", "requests>=2.28.0\n")]

/-- `generateForOperations`, after the contract document has been loaded: the
pure core that extracts (optionally filtered) operations, fails when none are
found, and otherwise renders the file map.  The filesystem writes the source
performs afterwards are outside the core. -/
def generateForOperations (spec : OpenAPISpec) (language : SupportedLanguage)
    (packageName : Option String) (operations : Option (List String)) :
    Except String (List (String × String)) :=
  let ops := extractOperations spec operations
  if ops.length = 0 then Except.error "No operations found in the spec"
  else
    Except.ok (generateForLanguage language ops
      { packageName := jsOrDefault packageName "com.example.client"
        apiClassName := deriveApiClassName spec.info.title })

/-! ## Runtime semantics of the emitted Java client -/

/-- Runtime meaning of the query-building statements emitted by
`generateJavaService` for a method whose declared query parameters are
`qargs` (name paired with the argument supplied at the call, `none` for a
Java `null`): the `i`-th declared parameter, when non-null, appends the
literal prefix `""` if `i = 0` and `"&"` otherwise, then `name=value`; if
anything was appended the whole string is prefixed with `"?"`.  Compare the
`queryCode` template in `javaMethodFor`, which emits exactly these
statements. -/
def emittedQueryString (qargs : List (String × Option String)) : String :=
  let query := qargs.enum.foldl (fun q ip =>
    match ip.2.2 with
    | some v => q ++ (if ip.1 = 0 then "" else "&") ++ ip.2.1 ++ "=" ++ v
    | none => q) ""
  if query.length > 0 then "?" ++ query else ""

/-- Runtime meaning of the status handling at the end of the emitted
`sendRequest` method: `2xx` returns the raw response body, an (unreachable)
`204` test returns the Java `null` (`none` here), and every other status
raises `RuntimeException("HTTP " + statusCode + ": " + responseBody)`. -/
def sendRequestStatusHandling (statusCode : Nat) (responseBody : String) :
    Except String (Option String) :=
  if 200 ≤ statusCode ∧ statusCode < 300 then Except.ok (some responseBody)
  else if statusCode = 204 then Except.ok none
  else Except.error ("HTTP " ++ toString statusCode ++ ": " ++ responseBody)

/-! ## Intent matcher / task planner (src/src/cli/commands/implement.ts,
`plan` command) -/

/-- Task lifecycle states. -/
inductive TaskStatus where
  | pending
  | inProgress
  | completed
deriving DecidableEq

/-- `Task`. -/
structure Task where
  id : String
  title : String
  description : String
  status : TaskStatus
  operations : List String
deriving DecidableEq

/-- The fixed action-keyword table of `analyzeIntentAndCreateTasks`. -/
def actionKeywordTable : List (String × List String) :=
  [("create", ["create", "add", "new", "make", "post"]),
   ("list", ["list", "get all", "fetch all", "show all", "all"]),
   ("get", ["get", "fetch", "retrieve", "find", "show", "read"]),
   ("update", ["update", "modify", "edit", "change", "put", "patch"]),
   ("delete", ["delete", "remove", "destroy"])]

/-- The action categories whose keyword lists hit the lower-cased intent as a
substring (the source's `matchedActions` set, in table order). -/
def matchedActionsOf (intentLower : String) : List String :=
  (actionKeywordTable.filter (fun e =>
    e.2.any (fun kw => hasSubstr intentLower kw))).map (fun e => e.1)

/-- Check 1a, the entity match: some intent token longer than two characters
occurs in the lower-cased operation id, path, summary, or a tag. -/
def entityMatchB (intentWords : List String)
    (opId opPath opSummary : String) (opTags : List String) : Bool :=
  intentWords.any (fun word =>
    decide (jsLength word > 2) &&
    (hasSubstr opId word || hasSubstr opPath word || hasSubstr opSummary word ||
     opTags.any (fun tag => hasSubstr tag word)))

/-- Check 1b, the action match: a detected action category agrees with the
HTTP verb (`list` additionally requires a path without `{`). -/
def actionMatchB (matchedActions : List String) (method pathKey : String) : Bool :=
  (matchedActions.contains "create" && method = "post") ||
  (matchedActions.contains "list" && method = "get" && !hasSubstr pathKey "\x7b") ||
  (matchedActions.contains "get" && method = "get") ||
  (matchedActions.contains "update" && (method = "put" || method = "patch")) ||
  (matchedActions.contains "delete" && method = "delete")

/-- Check 1 of the matching loop: entity match AND (action match OR no action
category was detected). -/
def opCheck1 (intentWords matchedActions : List String)
    (pathKey method : String) (op : Operation) (oid : String) : Bool :=
  let opId := jsToLower oid
  let opSummary := jsToLower (match op.summary with | some s => s | none => "")
  let opTags := op.tags.map jsToLower
  let opPath := jsToLower pathKey
  entityMatchB intentWords opId opPath opSummary opTags &&
    (actionMatchB matchedActions method pathKey || matchedActions.isEmpty)

/-- Check 2, the catch-all: some intent token longer than three characters is
a substring of the lower-cased operation id. -/
def opCheck2 (intentWords : List String) (oid : String) : Bool :=
  intentWords.any (fun word =>
    decide (jsLength word > 3) && hasSubstr (jsToLower oid) word)

/-- Append `a` unless already present — the source's
`if (!matchedOperations.includes(id)) matchedOperations.push(id)`. -/
def insertIfNew (acc : List String) (a : String) : List String :=
  if a ∈ acc then acc else acc ++ [a]

/-- One iteration of the matching loop over a `(path, verb, operation)`
traversal entry: skip falsy ids, then perform the two conditional pushes
(check 1 and check 2), each deduplicating by id. -/
def planStep (intentWords matchedActions : List String)
    (acc : List String) (entry : String × String × Operation) : List String :=
  match truthyId entry.2.2.operationId with
  | none => acc
  | some oid =>
    let acc1 :=
      if opCheck1 intentWords matchedActions entry.1 entry.2.1 entry.2.2 oid then
        insertIfNew acc oid
      else acc
    if opCheck2 intentWords oid then insertIfNew acc1 oid else acc1

/-- The matched-operation accumulation of `analyzeIntentAndCreateTasks`:
nested document-order loops over paths and verb entries. -/
def matchedOperationsOf (intent : String) (spec : OpenAPISpec) : List String :=
  let intentLower := jsToLower intent
  let intentWords := jsSplitWsTokens intentLower
  let matchedActions := matchedActionsOf intentLower
  spec.paths.foldl (fun acc pi =>
    pi.2.foldl (fun a mo => planStep intentWords matchedActions a (pi.1, mo.1, mo.2)) acc) []

/-- Declarative reading of one traversal entry of the matching loop: the
operation id, when the id is truthy and check 1 or check 2 fires. -/
def candidateOf (intentWords matchedActions : List String)
    (entry : String × String × Operation) : Option String :=
  match truthyId entry.2.2.operationId with
  | none => none
  | some oid =>
    if opCheck1 intentWords matchedActions entry.1 entry.2.1 entry.2.2 oid ||
       opCheck2 intentWords oid then some oid
    else none

/-- All matching operation ids in document-traversal order, with repeats (one
occurrence per traversal entry that matches). -/
def matchCandidates (intent : String) (spec : OpenAPISpec) : List String :=
  let intentLower := jsToLower intent
  let intentWords := jsSplitWsTokens intentLower
  let matchedActions := matchedActionsOf intentLower
  (traversalEntries spec).filterMap (candidateOf intentWords matchedActions)

/-- First-occurrence deduplication (what repeated `insertIfNew` pushes
compute). -/
def dedupFirst (l : List String) : List String := l.foldl insertIfNew []

/-- `extractTaskTitle`: capitalise the first character; truncate to 47
characters plus `"..."` when longer than 50. -/
def extractTaskTitle (intent : String) : String :=
  let title :=
    match intent.toList with
    | [] => ""
    | c :: rest => String.mk (c.toUpper :: rest)
  if jsLength title > 50 then String.mk (title.toList.take 47) ++ "..." else title

/-- `analyzeIntentAndCreateTasks`: zero tasks when nothing matched, otherwise
exactly one pending task bundling all matched ids.  `nowId` stands for the
source's `Date.now()` timestamp used in the task id. -/
def analyzeIntentAndCreateTasks (intent : String) (spec : OpenAPISpec)
    (nowId : String) : List Task :=
  let matchedOperations := matchedOperationsOf intent spec
  if matchedOperations.length > 0 then
    [{ id := "task-" ++ nowId
       title := extractTaskTitle intent
       description := "Implement: " ++ intent
       status := TaskStatus.pending
       operations := matchedOperations }]
  else []

/-! ## Guardrail engine (src/src/core/guardrails.ts)

The rule patterns are JS regular expressions; each one is modelled by an
executable matcher over the line's characters with the same semantics. -/

/-- JS regex word character (`\w`): ASCII letter, digit or underscore. -/
def jsWordChar (c : Char) : Bool :=
  ('a' ≤ c ∧ c ≤ 'z') || ('A' ≤ c ∧ c ≤ 'Z') || ('0' ≤ c ∧ c ≤ '9') || c = '_'

/-- Like `scanAny`, but the matcher additionally requires a word boundary
before the match position (used for patterns anchored with `\b` before a word
character). -/
def scanBoundaryAux (p : List Char → Bool) : Bool → List Char → Bool
  | _, [] => false
  | prevWord, c :: rest =>
    (!prevWord && p (c :: rest)) || scanBoundaryAux p (jsWordChar c) rest

/-- Search with a leading word boundary from the start of the line. -/
def scanBoundary (p : List Char → Bool) (l : List Char) : Bool :=
  scanBoundaryAux p false l

/-- Match `\s*\(` (any whitespace then an opening parenthesis). -/
def wsThenParen (l : List Char) : Bool :=
  match l.dropWhile Char.isWhitespace with
  | '(' :: _ => true
  | _ => false

/-- `/\bfetch\s*\(/`. -/
def noFetchPattern (line : String) : Bool :=
  scanBoundary (fun l =>
    match stripLit "fetch".toList l with
    | some r => wsThenParen r
    | none => false) line.toList

/-- `/\baxios\s*[\.\(]/`. -/
def noAxiosPattern (line : String) : Bool :=
  scanBoundary (fun l =>
    match stripLit "axios".toList l with
    | some r =>
      (match r.dropWhile Char.isWhitespace with
       | '.' :: _ => true
       | '(' :: _ => true
       | _ => false)
    | none => false) line.toList

/-- `/new\s+HttpClient\s*\(/`. -/
def noHttpClientPattern (line : String) : Bool :=
  scanAny (fun l =>
    match stripLit "new".toList l with
    | some r =>
      (match r with
       | c :: rest =>
         c.isWhitespace &&
         (match stripLit "HttpClient".toList (rest.dropWhile Char.isWhitespace) with
          | some r2 => wsThenParen r2
          | none => false)
       | [] => false)
    | none => false) line.toList

/-- `/new\s+OkHttpClient\s*\(/`. -/
def noOkHttpPattern (line : String) : Bool :=
  scanAny (fun l =>
    match stripLit "new".toList l with
    | some r =>
      (match r with
       | c :: rest =>
         c.isWhitespace &&
         (match stripLit "OkHttpClient".toList (rest.dropWhile Char.isWhitespace) with
          | some r2 => wsThenParen r2
          | none => false)
       | [] => false)
    | none => false) line.toList

/-- `/requests\.(get|post|put|delete|patch)\s*\(/`. -/
def noRequestsPattern (line : String) : Bool :=
  scanAny (fun l =>
    match stripLit "requests.".toList l with
    | some r =>
      ["get", "post", "put", "delete", "patch"].any (fun verb =>
        match stripLit verb.toList r with
        | some r2 => wsThenParen r2
        | none => false)
    | none => false) line.toList

/-- `/urllib\.(request|urlopen)/`. -/
def noUrllibPattern (line : String) : Bool :=
  scanAny (fun l =>
    match stripLit "urllib.".toList l with
    | some r =>
      (stripLit "request".toList r).isSome || (stripLit "urlopen".toList r).isSome
    | none => false) line.toList

/-- A quote character of the `no-raw-url` character classes (`"` or `'`). -/
def quoteChar (c : Char) : Bool := c = '"' || c = Char.ofNat 39

/-- Match `[^"']*["']`: skip non-quote characters until some quote. -/
def rawUrlTailClose : List Char → Bool
  | [] => false
  | c :: rest => quoteChar c || (!quoteChar c && rawUrlTailClose rest)

/-- Match `[^"']+["']`: at least one non-quote character followed eventually
by a closing quote. -/
def rawUrlTail : List Char → Bool
  | [] => false
  | c :: rest => !quoteChar c && rawUrlTailClose rest

/-- `/["'](https?:\/\/[^"']+)["']/`. -/
def noRawUrlPattern (line : String) : Bool :=
  scanAny (fun l =>
    match l with
    | q :: rest =>
      quoteChar q &&
      (match stripLit "http".toList rest with
       | some r =>
         (match stripLit "://".toList r with
          | some r2 => rawUrlTail r2
          | none =>
            match r with
            | 's' :: r1 =>
              (match stripLit "://".toList r1 with
               | some r2 => rawUrlTail r2
               | none => false)
            | _ => false)
       | none => false)
    | [] => false) line.toList

/-- Skip pattern `/xmlns/i`. -/
def skipXmlns (line : String) : Bool := hasSubstr (jsToLower line) "xmlns"

/-- Skip pattern `/xsi:/i`. -/
def skipXsi (line : String) : Bool := hasSubstr (jsToLower line) "xsi:"

/-- Skip pattern `/schema/i`. -/
def skipSchemaWord (line : String) : Bool := hasSubstr (jsToLower line) "schema"

/-- Skip pattern `/setBasePath/`. -/
def skipSetBasePath (line : String) : Bool := hasSubstr line "setBasePath"

/-- Skip pattern `/basePath/`. -/
def skipBasePath (line : String) : Bool := hasSubstr line "basePath"

/-- Skip pattern `/Configuration\s*\(/`. -/
def skipConfigurationCall (line : String) : Bool :=
  scanAny (fun l =>
    match stripLit "Configuration".toList l with
    | some r => wsThenParen r
    | none => false) line.toList

/-- A guardrail rule: name, forbidden-pattern matcher, message, optional
language restriction, optional skip patterns. -/
structure GuardrailRule where
  name : String
  pattern : String → Bool
  message : String
  languages : Option (List String)
  skipPatterns : Option (List (String → Bool))

/-- The rule table constructed once at `Guardrails` construction. -/
def guardrailRules : List GuardrailRule :=
  [{ name := "no-fetch", pattern := noFetchPattern,
     message := "Direct fetch() calls are not allowed. Use the SDK instead.",
     languages := some ["typescript", "javascript"], skipPatterns := none },
   { name := "no-axios", pattern := noAxiosPattern,
     message := "Direct axios calls are not allowed. Use the SDK instead.",
     languages := some ["typescript", "javascript"], skipPatterns := none },
   { name := "no-http-client", pattern := noHttpClientPattern,
     message := "Direct HttpClient usage is not allowed. Use the SDK instead.",
     languages := some ["java"], skipPatterns := none },
   { name := "no-okhttp-direct", pattern := noOkHttpPattern,
     message := "Direct OkHttpClient usage is not allowed. Use the SDK instead.",
     languages := some ["java"], skipPatterns := none },
   { name := "no-requests", pattern := noRequestsPattern,
     message := "Direct requests calls are not allowed. Use the SDK instead.",
     languages := some ["python"], skipPatterns := none },
   { name := "no-urllib", pattern := noUrllibPattern,
     message := "Direct urllib usage is not allowed. Use the SDK instead.",
     languages := some ["python"], skipPatterns := none },
   { name := "no-raw-url", pattern := noRawUrlPattern,
     message := "Hardcoded URLs detected. API calls should go through the SDK.",
     languages := none,
     skipPatterns := some [skipXmlns, skipXsi, skipSchemaWord, skipSetBasePath,
                           skipBasePath, skipConfigurationCall] }]

/-- `inferLanguage`: language from the file extension. -/
def inferLanguage (filePath : String) : String :=
  if jsEndsWith filePath ".java" then "java"
  else if jsEndsWith filePath ".ts" || jsEndsWith filePath ".tsx" then "typescript"
  else if jsEndsWith filePath ".js" || jsEndsWith filePath ".jsx" then "javascript"
  else if jsEndsWith filePath ".py" then "python"
  else "unknown"

/-- `isComment`: the trimmed line starts with a comment marker of the file's
language. -/
def isComment (line language : String) : Bool :=
  let trimmed := jsTrim line
  if language = "java" ∨ language = "typescript" ∨ language = "javascript" then
    jsStartsWith trimmed "//" || jsStartsWith trimmed "*" || jsStartsWith trimmed "/*"
  else if language = "python" then
    jsStartsWith trimmed "#" || jsStartsWith trimmed "\"\"\"" ||
      jsStartsWith trimmed "\x27\x27\x27"
  else false

/-- The source's `rule.languages && !rule.languages.includes(language)`
guard: a rule is skipped when it declares languages not including this one. -/
def ruleNotApplicable (rule : GuardrailRule) (language : String) : Bool :=
  match rule.languages with
  | some langs => !langs.contains language
  | none => false

/-- The source's `rule.skipPatterns?.some(skip => skip.test(line)) ?? false`. -/
def shouldSkipLine (rule : GuardrailRule) (line : String) : Bool :=
  match rule.skipPatterns with
  | some skips => skips.any (fun skip => skip line)
  | none => false

/-- The violation string
`` `[${rule.name}] ${location}: ${rule.message}` `` with a 1-indexed line
number in the location. -/
def formatViolation (rule : GuardrailRule) (filePath : Option String) (i : Nat) :
    String :=
  let location :=
    match filePath with
    | some fp => fp ++ ":" ++ toString (i + 1)
    | none => "line " ++ toString (i + 1)
  "[" ++ rule.name ++ "] " ++ location ++ ": " ++ rule.message

/-- `validateFile`: for every rule applicable to the language, scan every
non-comment line; a line matching the rule's pattern with no skip-pattern hit
appends a formatted violation. -/
def validateFile (rules : List GuardrailRule) (content language : String)
    (filePath : Option String) : List String :=
  let lines := jsSplitNl content
  rules.foldl (fun violations rule =>
    if ruleNotApplicable rule language then violations
    else
      lines.enum.foldl (fun acc il =>
        if isComment il.2 language then acc
        else if rule.pattern il.2 then
          (if shouldSkipLine rule il.2 then acc
           else acc ++ [formatViolation rule filePath il.1])
        else acc) violations) []

/-- What `validateFile` reports for one rule and one enumerated line. -/
def lineViolationOf (rule : GuardrailRule) (language : String)
    (filePath : Option String) (il : Nat × String) : Option String :=
  if !isComment il.2 language && rule.pattern il.2 && !shouldSkipLine rule il.2 then
    some (formatViolation rule filePath il.1)
  else none

/-- `Guardrails.validate`: scan a file map, skipping `.xml` and `.pom` files
entirely and inferring each remaining file's language from its path. -/
def validate (files : List (String × String)) : List String :=
  files.foldl (fun violations file =>
    if jsEndsWith file.1 ".xml" || jsEndsWith file.1 ".pom" then violations
    else
      violations ++
        validateFile guardrailRules file.2 (inferLanguage file.1) (some file.1)) []

/-! ## Claim-side decomposition of return-type inference -/

/-- The success response consulted by `inferReturnType`:
`responses['200'] || responses['201']`. -/
def successRespOf (op : Operation) : Option ResponseObj :=
  match jsProp op.responses "200" with
  | some r => some r
  | none => jsProp op.responses "201"

/-- The `content` of the consulted success response, when both exist. -/
def successContentOf (op : Operation) : Option (List (String × MediaType)) :=
  match successRespOf op with
  | none => none
  | some r => r.content

/-- The trailing `/`-segment of a `$ref`, when non-empty. -/
def refTrailingSegment (r : String) : Option String :=
  match (refSegments r).getLast? with
  | some seg => if seg = "" then none else some seg
  | none => none

/-- The resolvable named schema of a success-response content map: a truthy
`$ref` on the `application/json` schema with a non-empty trailing segment. -/
def jsonRefNameOf (content : List (String × MediaType)) : Option String :=
  match jsProp content "application/json" with
  | none => none
  | some mt =>
    match mt.schema with
    | none => none
    | some sch =>
      match sch.ref with
      | none => none
      | some r => if r = "" then none else refTrailingSegment r

/-! ## Concrete fixtures used by the claims -/

/-- A minimal well-formed operation carrying only an id. -/
def petsOperation (oid : String) : Operation :=
  { operationId := some oid, summary := none, tags := [], parameters := [],
    requestBody := none, responses := [] }

/-- The pet-store contract of the spec's examples: `listPets` (GET `/pets`),
`createPet` (POST `/pets`), `getPet` (GET `/pets/{id}`). -/
def petstoreSpec : OpenAPISpec :=
  { info := { title := "Pet Store API" }
    paths :=
      [("/pets", [("get", petsOperation "listPets"),
                  ("post", petsOperation "createPet")]),
       ("/pets/\x7bid\x7d", [("get", petsOperation "getPet")])] }

/-- A contract with no paths at all. -/
def emptySpec : OpenAPISpec := { info := { title := "Empty" }, paths := [] }

/-- An operation whose only success response carries a `text/plain` body and
no `application/json` entry. -/
def textPlainOp : Operation :=
  { operationId := some "downloadReport", summary := none, tags := [],
    parameters := [], requestBody := none,
    responses := [("200", { content := some [("text/plain", { schema := none })] })] }

/-- An operation whose `200` response carries an `application/json` schema
with a `$ref` to `#/components/schemas/Pet`. -/
def petRefOp : Operation :=
  { operationId := some "getPet", summary := none, tags := [], parameters := [],
    requestBody := none,
    responses :=
      [("200",
        { content := some
            [("application/json",
              { schema := some { type := none, ref := some "#/components/schemas/Pet" } })] })] }

/-- The spec's guardrail example line with a direct `fetch` call. -/
def tsFetchLine : String :=
  "const res = await fetch(\"https://api.example.com/x\")"

/-- The same text on a line starting with `//`. -/
def tsFetchLineCommented : String :=
  "// const res = await fetch(\"https://api.example.com/x\")"

/-- The spec's suppressed configuration line. -/
def tsBasePathLine : String :=
  "basePath: \"https://api.example.com\""

/-- A `pom.xml`-style line with a hardcoded URL that would match `no-raw-url`
and no skip pattern. -/
def pomUrlLine : String :=
  "<repoUrl value=\"https://repo.example.com/artifacts\"/>"

/-- A sample naming context. -/
def sampleCtx : GenContext :=
  { packageName := "com.example.client", apiClassName := "PetStoreAPI" }

/-- Append the value of an optional result, if any. -/
def optAppend {β : Type} (acc : List β) (o : Option β) : List β :=
  match o with
  | some v => acc ++ [v]
  | none => acc

/-- Insert the value of an optional result, if any, deduplicating. -/
def optInsert (acc : List String) (o : Option String) : List String :=
  match o with
  | some v => insertIfNew acc v
  | none => acc

/-! ## General fold lemmas -/

/-- A fold whose step appends a per-element block equals the flat-map of the
blocks. -/
theorem foldl_pointwise_append {α β : Type} (step : List β → α → List β)
    (h : α → List β) (hstep : ∀ acc x, step acc x = acc ++ h x) (l : List α) :
    ∀ acc, l.foldl step acc = acc ++ l.flatMap h := by
  induction l with
  | nil => intro acc; simp
  | cons x xs ih =>
    intro acc
    rw [List.foldl_cons, hstep, ih, List.flatMap_cons, List.append_assoc]

/-- A fold whose step appends at most one element equals the filter-map of
the per-element results. -/
theorem foldl_pointwise_optAppend {α β : Type} (step : List β → α → List β)
    (g : α → Option β)
    (hstep : ∀ acc x, step acc x = optAppend acc (g x))
    (l : List α) : ∀ acc, l.foldl step acc = acc ++ l.filterMap g := by
  induction l with
  | nil => intro acc; simp
  | cons x xs ih =>
    intro acc
    rw [List.foldl_cons, hstep, List.filterMap_cons]
    cases hx : g x with
    | none => simp only [optAppend]; rw [ih]
    | some v => simp only [optAppend]; rw [ih]; simp

/-- A fold whose step conditionally inserts one deduplicated element equals
the `insertIfNew` fold over the filter-mapped results. -/
theorem foldl_pointwise_optInsert {α : Type} (step : List String → α → List String)
    (g : α → Option String)
    (hstep : ∀ acc x, step acc x = optInsert acc (g x))
    (l : List α) :
    ∀ acc, l.foldl step acc = (l.filterMap g).foldl insertIfNew acc := by
  induction l with
  | nil => intro acc; rfl
  | cons x xs ih =>
    intro acc
    rw [List.foldl_cons, hstep, List.filterMap_cons]
    cases hx : g x with
    | none => simp only [optInsert]; exact ih acc
    | some v => simp only [optInsert, List.foldl_cons]; exact ih _

/-- A nested document-order fold over paths and their verb entries equals a
single fold over the flattened `(path, verb, operation)` traversal. -/
theorem foldl_nested_traversal {β : Type} (step : β → String × String × Operation → β)
    (paths : List (String × PathItemEntries)) :
    ∀ acc : β,
      paths.foldl (fun acc pi =>
          pi.2.foldl (fun a mo => step a (pi.1, mo.1, mo.2)) acc) acc
        = (paths.flatMap (fun pi => pi.2.map (fun mo => (pi.1, mo.1, mo.2)))).foldl
            step acc := by
  induction paths with
  | nil => intro acc; rfl
  | cons p ps ih =>
    intro acc
    rw [List.foldl_cons, List.flatMap_cons, List.foldl_append, ih, List.foldl_map]

/-- A fold that skips some elements outright equals the fold over the
unskipped sublist. -/
theorem foldl_skip_filter {α β : Type} (step : β → α → β) (skip : α → Bool)
    (hskip : ∀ acc x, skip x = true → step acc x = acc) (l : List α) :
    ∀ acc, l.foldl step acc = (l.filter (fun x => !skip x)).foldl step acc := by
  induction l with
  | nil => intro acc; rfl
  | cons x xs ih =>
    intro acc
    rw [List.foldl_cons, List.filter_cons]
    by_cases h : skip x
    · rw [hskip acc x h]; simp [h]; exact ih acc
    · simp [h]; exact ih (step acc x)

/-! ## `insertIfNew` and first-seen deduplication -/

theorem mem_insertIfNew (acc : List String) (a b : String) :
    b ∈ insertIfNew acc a ↔ b ∈ acc ∨ b = a := by
  by_cases h : a ∈ acc
  · rw [insertIfNew, if_pos h]
    exact ⟨Or.inl, fun hb => hb.elim id (fun e => e ▸ h)⟩
  · rw [insertIfNew, if_neg h]
    simp

theorem nodup_insertIfNew (acc : List String) (a : String) (h : acc.Nodup) :
    (insertIfNew acc a).Nodup := by
  by_cases ha : a ∈ acc
  · rwa [insertIfNew, if_pos ha]
  · rw [insertIfNew, if_neg ha]
    simp [List.nodup_append, h, ha]

theorem insertIfNew_idem (acc : List String) (a : String) :
    insertIfNew (insertIfNew acc a) a = insertIfNew acc a := by
  by_cases h : a ∈ acc
  · simp [insertIfNew, h]
  · simp [insertIfNew, h]

theorem mem_foldl_insertIfNew (l : List String) :
    ∀ (acc : List String) (b : String),
      b ∈ l.foldl insertIfNew acc ↔ b ∈ acc ∨ b ∈ l := by
  induction l with
  | nil => simp
  | cons a l ih =>
    intro acc b
    rw [List.foldl_cons, ih, mem_insertIfNew]
    simp only [List.mem_cons]
    tauto

theorem nodup_foldl_insertIfNew (l : List String) :
    ∀ acc : List String, acc.Nodup → (l.foldl insertIfNew acc).Nodup := by
  induction l with
  | nil => intro acc h; exact h
  | cons a l ih => intro acc h; exact ih _ (nodup_insertIfNew acc a h)

theorem foldl_insertIfNew_sublist (l : List String) :
    ∀ acc : List String, ∃ s, l.foldl insertIfNew acc = acc ++ s ∧ s.Sublist l := by
  induction l with
  | nil => intro acc; exact ⟨[], by simp, by simp⟩
  | cons a l ih =>
    intro acc
    by_cases h : a ∈ acc
    · obtain ⟨s, hs, hsub⟩ := ih acc
      refine ⟨s, ?_, hsub.cons a⟩
      rw [List.foldl_cons, insertIfNew, if_pos h]
      exact hs
    · obtain ⟨s, hs, hsub⟩ := ih (acc ++ [a])
      refine ⟨a :: s, ?_, hsub.cons₂ a⟩
      rw [List.foldl_cons, insertIfNew, if_neg h, hs]
      simp

theorem dedupFirst_nodup (l : List String) : (dedupFirst l).Nodup :=
  nodup_foldl_insertIfNew l [] List.nodup_nil

theorem mem_dedupFirst (l : List String) (b : String) :
    b ∈ dedupFirst l ↔ b ∈ l := by
  rw [dedupFirst, mem_foldl_insertIfNew]
  simp

theorem dedupFirst_sublist (l : List String) : (dedupFirst l).Sublist l := by
  obtain ⟨s, hs, hsub⟩ := foldl_insertIfNew_sublist l []
  rw [dedupFirst, hs]
  simpa using hsub

theorem dedupFirst_eq_nil_iff (l : List String) : dedupFirst l = [] ↔ l = [] := by
  constructor
  · intro h
    cases l with
    | nil => rfl
    | cons a l =>
      exfalso
      have ha : a ∈ dedupFirst (a :: l) :=
        (mem_dedupFirst _ _).2 (List.mem_cons_self a l)
      rw [h] at ha
      exact (List.not_mem_nil a) ha
  · rintro rfl; rfl

/-! ## The matching loop computes a first-seen deduplication -/

theorem planStep_eq_candidateOf (iw ma : List String) (acc : List String)
    (e : String × String × Operation) :
    planStep iw ma acc e = optInsert acc (candidateOf iw ma e) := by
  cases h : truthyId e.2.2.operationId with
  | none => simp [planStep, candidateOf, optInsert, h]
  | some oid =>
    simp only [planStep, candidateOf, h]
    by_cases h1 : opCheck1 iw ma e.1 e.2.1 e.2.2 oid <;>
      by_cases h2 : opCheck2 iw oid <;>
        simp [h1, h2, optInsert, insertIfNew_idem]

theorem foldl_planStep_filterMap (iw ma : List String)
    (l : List (String × String × Operation)) :
    ∀ acc, l.foldl (planStep iw ma) acc
      = (l.filterMap (candidateOf iw ma)).foldl insertIfNew acc :=
  foldl_pointwise_optInsert (planStep iw ma) (candidateOf iw ma)
    (planStep_eq_candidateOf iw ma) l

theorem matchedOperationsOf_eq_dedupFirst (intent : String) (spec : OpenAPISpec) :
    matchedOperationsOf intent spec = dedupFirst (matchCandidates intent spec) := by
  unfold matchedOperationsOf matchCandidates dedupFirst traversalEntries
  rw [foldl_nested_traversal, foldl_planStep_filterMap]

/-! ## Extraction equals a filter-map over the traversal -/

theorem extractStep_eq_ctxOf (fl : Option (List String))
    (acc : List OperationContext) (e : String × String × Operation) :
    extractStep fl acc e = optAppend acc (ctxOf fl e) := by
  cases h : truthyId e.2.2.operationId with
  | none => simp [extractStep, ctxOf, optAppend, h]
  | some oid =>
    cases fl with
    | none => simp [extractStep, ctxOf, optAppend, h]
    | some s =>
      by_cases hs : oid ∈ s <;> simp [extractStep, ctxOf, optAppend, h, hs]

theorem extractOperations_eq_filterMap (spec : OpenAPISpec)
    (fl : Option (List String)) :
    extractOperations spec fl = (traversalEntries spec).filterMap (ctxOf fl) := by
  unfold extractOperations traversalEntries
  rw [foldl_nested_traversal,
    foldl_pointwise_optAppend (extractStep fl) (ctxOf fl) (extractStep_eq_ctxOf fl)]
  simp

theorem ctxOf_none_map_id (t : String × String × Operation) :
    (ctxOf none t).map (fun c => c.operationId) = truthyId t.2.2.operationId := by
  cases h : truthyId t.2.2.operationId <;> simp [ctxOf, h, mkContext]

theorem filterMap_ctxOf_filter (S : List String)
    (l : List (String × String × Operation)) :
    l.filterMap (ctxOf (some S)) =
      (l.filterMap (ctxOf none)).filter (fun c => S.contains c.operationId) := by
  induction l with
  | nil => rfl
  | cons t ts ih =>
    rw [List.filterMap_cons, List.filterMap_cons]
    cases h : truthyId t.2.2.operationId with
    | none =>
      have h1 : ctxOf (some S) t = none := by simp [ctxOf, h]
      have h2 : ctxOf none t = none := by simp [ctxOf, h]
      rw [h1, h2]
      exact ih
    | some oid =>
      have h2 : ctxOf none t = some (mkContext t.1 t.2.1 oid t.2.2) := by
        simp [ctxOf, h]
      have hproj : (mkContext t.1 t.2.1 oid t.2.2).operationId = oid := rfl
      by_cases hS : oid ∈ S
      · have h1 : ctxOf (some S) t = some (mkContext t.1 t.2.1 oid t.2.2) := by
          simp [ctxOf, h, hS]
        rw [h1, h2]
        simp [List.filter_cons, hproj, hS, ih]
      · have h1 : ctxOf (some S) t = none := by simp [ctxOf, h, hS]
        rw [h1, h2]
        simp [List.filter_cons, hproj, hS, ih]

/-! ## The guardrail scan as a comprehension -/

theorem lineStep_eq_lineViolationOf (rule : GuardrailRule) (language : String)
    (filePath : Option String) (acc : List String) (il : Nat × String) :
    (if isComment il.2 language then acc
     else if rule.pattern il.2 then
       (if shouldSkipLine rule il.2 then acc
        else acc ++ [formatViolation rule filePath il.1])
     else acc)
      = optAppend acc (lineViolationOf rule language filePath il) := by
  by_cases hc : isComment il.2 language <;>
    by_cases hp : rule.pattern il.2 <;>
      by_cases hs : shouldSkipLine rule il.2 <;>
        simp [lineViolationOf, optAppend, hc, hp, hs]

theorem validateFile_eq_flatMap (rules : List GuardrailRule)
    (content language : String) (filePath : Option String) :
    validateFile rules content language filePath =
      rules.flatMap (fun rule =>
        if ruleNotApplicable rule language then []
        else (jsSplitNl content).enum.filterMap
          (lineViolationOf rule language filePath)) := by
  unfold validateFile
  rw [foldl_pointwise_append _
    (fun rule =>
      if ruleNotApplicable rule language then []
      else (jsSplitNl content).enum.filterMap (lineViolationOf rule language filePath))
    ?hstep rules []]
  · simp
  case hstep =>
    intro acc rule
    by_cases hr : ruleNotApplicable rule language
    · simp [hr]
    · simp only [hr, if_neg, Bool.false_eq_true, not_false_eq_true]
      rw [foldl_pointwise_optAppend _
        (lineViolationOf rule language filePath)
        (lineStep_eq_lineViolationOf rule language filePath)]

theorem validate_skips_marked (files : List (String × String)) :
    validate files =
      validate (files.filter (fun f =>
        !(jsEndsWith f.1 ".xml" || jsEndsWith f.1 ".pom"))) := by
  unfold validate
  apply foldl_skip_filter
  intro acc x hx
  simp [hx]

/-! ## Return-type inference as a case analysis -/

theorem jsLastSegmentOr_eq (r fallback : String) :
    jsLastSegmentOr r fallback =
      match refTrailingSegment r with
      | some seg => seg
      | none => fallback := by
  unfold jsLastSegmentOr refTrailingSegment
  cases h : (refSegments r).getLast? with
  | none => rfl
  | some seg => by_cases hseg : seg = "" <;> simp [hseg]

theorem length_filter_comp {α β : Type} (f : α → β) (p : β → Bool) (l : List α) :
    ((l.map f).filter p).length = (l.filter (fun x => p (f x))).length := by
  induction l with
  | nil => rfl
  | cons x xs ih => by_cases h : p (f x) <;> simp [h, ih]

theorem inferReturnType_eq_cases (op : Operation) :
    inferReturnType op =
      match successContentOf op with
      | none => "void"
      | some content =>
        match jsonRefNameOf content with
        | some name => name
        | none => "Object" := by
  unfold inferReturnType successContentOf successRespOf jsonRefNameOf
  cases h200 : jsProp op.responses "200" with
  | none =>
    dsimp only
    cases h201 : jsProp op.responses "201" with
    | none => rfl
    | some r =>
      dsimp only
      cases hc : r.content with
      | none => rfl
      | some content =>
        dsimp only
        cases hj : jsProp content "application/json" with
        | none => rfl
        | some mt =>
          dsimp only
          cases hsch : mt.schema with
          | none => rfl
          | some sch =>
            dsimp only
            cases href : sch.ref with
            | none => rfl
            | some refStr =>
              dsimp only
              by_cases hre : refStr = ""
              · simp [hre]
              · rw [if_neg hre, if_neg hre, jsLastSegmentOr_eq]
  | some r =>
    dsimp only
    cases hc : r.content with
    | none => rfl
    | some content =>
      dsimp only
      cases hj : jsProp content "application/json" with
      | none => rfl
      | some mt =>
        dsimp only
        cases hsch : mt.schema with
        | none => rfl
        | some sch =>
          dsimp only
          cases href : sch.ref with
          | none => rfl
          | some refStr =>
            dsimp only
            by_cases hre : refStr = ""
            · simp [hre]
            · rw [if_neg hre, if_neg hre, jsLastSegmentOr_eq]

/-! ## Claim theorems -/

/-- Claim C1 (code bug).  The query-building logic the generator emits chooses
the `&` prefix by declaration index, not by whether anything was appended yet:
for two optional query parameters `a`, `b` with only `b` supplied, the emitted
Java client renders `?&b=1` — with a leading `&` — instead of the `?b=1` the
claim requires.  Declared-order rendering and omission of absent arguments do
hold, as the remaining conjuncts show. -/
theorem c1_query_string_leading_ampersand :
    emittedQueryString [("a", none), ("b", some "1")] = "?&b=1"
  ∧ emittedQueryString [("a", none), ("b", some "1")] ≠ "?b=1"
  ∧ emittedQueryString [("a", some "0"), ("b", some "1")] = "?a=0&b=1"
  ∧ emittedQueryString [("a", some "0"), ("b", none)] = "?a=0"
  ∧ emittedQueryString [("a", none), ("b", none)] = "" := by
  refine ⟨by decide, by decide, by decide, by decide, by decide⟩

/-- Claim C2 (code bug).  In the status handling of the emitted `sendRequest`,
the `statusCode == 204` branch is unreachable: 204 satisfies the preceding
`2xx` test and returns the raw response body rather than no value.  The other
conjuncts confirm the 2xx-success and error-raising behaviour at 200, 299,
404 and 500. -/
theorem c2_status_handling_204_unreachable :
    sendRequestStatusHandling 204 "ignored" = Except.ok (some "ignored")
  ∧ sendRequestStatusHandling 204 "ignored" ≠ Except.ok none
  ∧ sendRequestStatusHandling 200 "body" = Except.ok (some "body")
  ∧ sendRequestStatusHandling 299 "body" = Except.ok (some "body")
  ∧ sendRequestStatusHandling 404 "missing" = Except.error "HTTP 404: missing"
  ∧ sendRequestStatusHandling 500 "boom" = Except.error "HTTP 500: boom" := by
  refine ⟨rfl, ?_, rfl, rfl, rfl, rfl⟩
  intro h
  injection h with h2
  exact Option.noConfusion h2

/-- Claim C3 (confirmed).  Unfiltered extraction yields exactly the
well-formed operations (those with a truthy `operationId`) in document
traversal order, skipping the rest; extraction filtered by an id set `S` is
the document-order filter of the unfiltered result, and — when the contract's
ids are unique, the invariant the source assumes — has exactly
`|ids ∩ S|` descriptors. -/
theorem c3_extract_operations (spec : OpenAPISpec) (S : List String)
    (hnd : (wellFormedIds spec).Nodup) :
    (extractOperations spec none).map (fun c => c.operationId) = wellFormedIds spec
  ∧ (extractOperations spec none).length = (wellFormedIds spec).length
  ∧ extractOperations spec (some S) =
      (extractOperations spec none).filter (fun c => S.contains c.operationId)
  ∧ (extractOperations spec (some S)).length =
      ((wellFormedIds spec).toFinset ∩ S.toFinset).card := by
  have hmap : (extractOperations spec none).map (fun c => c.operationId)
      = wellFormedIds spec := by
    rw [extractOperations_eq_filterMap, List.map_filterMap]
    unfold wellFormedIds
    congr 1
    funext t
    exact ctxOf_none_map_id t
  have hfilter : extractOperations spec (some S) =
      (extractOperations spec none).filter (fun c => S.contains c.operationId) := by
    rw [extractOperations_eq_filterMap, extractOperations_eq_filterMap,
      filterMap_ctxOf_filter]
  refine ⟨hmap, ?_, hfilter, ?_⟩
  · rw [← hmap, List.length_map]
  · rw [hfilter]
    have h1 : ((extractOperations spec none).filter
        (fun c => S.contains c.operationId)).length
        = ((wellFormedIds spec).filter (fun a => S.contains a)).length := by
      rw [← hmap, length_filter_comp]
    rw [h1]
    have hnf : ((wellFormedIds spec).filter (fun a => S.contains a)).Nodup :=
      hnd.filter _
    rw [← List.toFinset_card_of_nodup hnf, List.toFinset_filter]
    congr 1
    ext a
    simp

/-- Witness for C3 at the pet-store contract with filter
`{getPet, launchRocket}`: one descriptor survives. -/
theorem c3_extract_operations_witness :
    (extractOperations petstoreSpec (some ["getPet", "launchRocket"])).length =
      ((wellFormedIds petstoreSpec).toFinset ∩
        (["getPet", "launchRocket"] : List String).toFinset).card :=
  (c3_extract_operations petstoreSpec ["getPet", "launchRocket"] (by decide)).2.2.2

/-- Claim C4 (corrected).  The claim's "absence of a JSON body implies
`void`" is false: a success response with content but no `application/json`
entry yields the generic fallback `"Object"`, not `"void"`. -/
theorem c4_no_json_body_counterexample :
    inferReturnType textPlainOp = "Object" ∧ inferReturnType textPlainOp ≠ "void" := by
  refine ⟨by decide, by decide⟩

/-- Claim C4 (corrected), amended statement: `returnType` is resolved only
from the `200`/`201` success response; absence of any response *content*
implies `"void"`; a resolvable `$ref` on the `application/json` schema (truthy
`$ref`, non-empty trailing segment) yields that trailing segment; all other
content — non-JSON, schema-less, `$ref`-less, or with an empty trailing
segment — yields the generic fallback `"Object"`. -/
theorem c4_return_type_resolution (op : Operation) :
    (successContentOf op = none → inferReturnType op = "void")
  ∧ (∀ content, successContentOf op = some content →
       jsonRefNameOf content = none → inferReturnType op = "Object")
  ∧ (∀ content name, successContentOf op = some content →
       jsonRefNameOf content = some name → inferReturnType op = name) := by
  refine ⟨?_, ?_, ?_⟩
  · intro h
    rw [inferReturnType_eq_cases, h]
  · intro content hc hr
    rw [inferReturnType_eq_cases, hc]
    simp [hr]
  · intro content name hc hr
    rw [inferReturnType_eq_cases, hc]
    simp [hr]

/-- Witness for C4's amended statement at an operation whose `200` response
references `#/components/schemas/Pet`. -/
theorem c4_return_type_resolution_witness :
    inferReturnType petRefOp = "Pet" :=
  (c4_return_type_resolution petRefOp).2.2
    [("application/json",
      { schema := some { type := none, ref := some "#/components/schemas/Pet" } })]
    "Pet" (by decide) (by decide)

/-- Claim C5 (confirmed).  Against the pet-store contract, the intent
`"create and list all pets"` plans exactly the operation set
`{createPet, listPets}` (in document order `listPets`, `createPet`) and
excludes `getPet`. -/
theorem c5_intent_matching_example :
    ((analyzeIntentAndCreateTasks "create and list all pets" petstoreSpec "0").map
        (fun t => t.operations)) = [["listPets", "createPet"]]
  ∧ (["listPets", "createPet"] : List String).Perm ["createPet", "listPets"]
  ∧ "getPet" ∉ (["listPets", "createPet"] : List String) := by
  refine ⟨by decide, by decide, by decide⟩

/-- Claim C6 (confirmed).  The planner emits at most one task; the result is
empty exactly when no traversal entry matches; otherwise it is exactly one
pending task whose id, title and description derive from the intent and whose
operations are the matched ids deduplicated by first occurrence — without
duplicates, containing exactly the matched ids, as a sublist (hence in
first-seen document-traversal order) of the raw match stream. -/
theorem c6_planner_single_task (intent : String) (spec : OpenAPISpec)
    (nowId : String) :
    (analyzeIntentAndCreateTasks intent spec nowId).length ≤ 1
  ∧ (analyzeIntentAndCreateTasks intent spec nowId = []
      ↔ matchCandidates intent spec = [])
  ∧ (matchCandidates intent spec ≠ [] →
      analyzeIntentAndCreateTasks intent spec nowId =
        [{ id := "task-" ++ nowId
           title := extractTaskTitle intent
           description := "Implement: " ++ intent
           status := TaskStatus.pending
           operations := dedupFirst (matchCandidates intent spec) }])
  ∧ (dedupFirst (matchCandidates intent spec)).Nodup
  ∧ (∀ a, a ∈ dedupFirst (matchCandidates intent spec)
      ↔ a ∈ matchCandidates intent spec)
  ∧ (dedupFirst (matchCandidates intent spec)).Sublist
      (matchCandidates intent spec) := by
  refine ⟨?_, ?_, ?_, dedupFirst_nodup _, mem_dedupFirst _, dedupFirst_sublist _⟩
  · simp only [analyzeIntentAndCreateTasks]
    split <;> simp
  · simp only [analyzeIntentAndCreateTasks, matchedOperationsOf_eq_dedupFirst]
    constructor
    · intro h
      by_contra hne
      have hd : dedupFirst (matchCandidates intent spec) ≠ [] :=
        fun hnil => hne ((dedupFirst_eq_nil_iff _).1 hnil)
      have hlen : 0 < (dedupFirst (matchCandidates intent spec)).length :=
        List.length_pos.2 hd
      rw [if_pos hlen] at h
      exact List.noConfusion h
    · intro h
      have hd : dedupFirst (matchCandidates intent spec) = [] :=
        (dedupFirst_eq_nil_iff _).2 h
      rw [hd]
      simp
  · intro h
    have hd : dedupFirst (matchCandidates intent spec) ≠ [] :=
      fun hnil => h ((dedupFirst_eq_nil_iff _).1 hnil)
    have hlen : 0 < (dedupFirst (matchCandidates intent spec)).length :=
      List.length_pos.2 hd
    simp only [analyzeIntentAndCreateTasks, matchedOperationsOf_eq_dedupFirst]
    rw [if_pos hlen]

/-- Witness for C6 at the intent `"delete pets"` against the pet-store
contract (matched via the length-four token `pets` inside `listPets`). -/
theorem c6_planner_single_task_witness :
    analyzeIntentAndCreateTasks "delete pets" petstoreSpec "9" =
      [{ id := "task-" ++ "9"
         title := extractTaskTitle "delete pets"
         description := "Implement: " ++ "delete pets"
         status := TaskStatus.pending
         operations := dedupFirst (matchCandidates "delete pets" petstoreSpec) }] :=
  (c6_planner_single_task "delete pets" petstoreSpec "9").2.2.1 (by decide)

/-- Claim C7 (confirmed).  A rule reports a violation for a line exactly when
the rule applies to the file's language (unrestricted rules apply to all),
the line is not a comment, the forbidden pattern matches and no skip pattern
does — `validateFile` equals the corresponding comprehension.  Concretely: a
direct `fetch` call in a TypeScript file triggers `no-fetch` (and the raw URL
in it triggers `no-raw-url`), the same text behind `//` triggers nothing, and
a `basePath` configuration line matching `no-raw-url` is suppressed by the
`basePath` skip pattern. -/
theorem c7_guardrail_rule_engine :
    (∀ (rules : List GuardrailRule) (content language : String)
        (filePath : Option String),
      validateFile rules content language filePath =
        rules.flatMap (fun rule =>
          if ruleNotApplicable rule language then []
          else (jsSplitNl content).enum.filterMap
            (lineViolationOf rule language filePath)))
  ∧ validateFile guardrailRules tsFetchLine "typescript" (some "app.ts") =
      ["[no-fetch] app.ts:1: Direct fetch() calls are not allowed. Use the SDK instead.",
       "[no-raw-url] app.ts:1: Hardcoded URLs detected. API calls should go through the SDK."]
  ∧ validateFile guardrailRules tsFetchLineCommented "typescript" (some "app.ts") = []
  ∧ validateFile guardrailRules tsBasePathLine "typescript" (some "app.ts") = [] := by
  refine ⟨validateFile_eq_flatMap, by decide, by decide, by decide⟩

/-- Claim C8 (confirmed).  Emission is a pure function of
`(operations, targetLanguage, context)`: two calls with equal arguments
produce byte-identical file maps. -/
theorem c8_emission_deterministic (lang1 lang2 : SupportedLanguage)
    (ops1 ops2 : List OperationContext) (ctx1 ctx2 : GenContext)
    (hl : lang1 = lang2) (ho : ops1 = ops2) (hc : ctx1 = ctx2) :
    generateForLanguage lang1 ops1 ctx1 = generateForLanguage lang2 ops2 ctx2 := by
  subst hl
  subst ho
  subst hc
  rfl

/-- Witness for C8: two emissions of the pet-store operations for Java
coincide. -/
theorem c8_emission_deterministic_witness :
    generateForLanguage SupportedLanguage.java
        (extractOperations petstoreSpec none) sampleCtx =
      generateForLanguage SupportedLanguage.java
        (extractOperations petstoreSpec none) sampleCtx :=
  c8_emission_deterministic _ _ _ _ _ _ rfl rfl rfl

/-- Claim C9 (confirmed).  Generation fails with the empty-operation-set
error exactly when the (optionally filtered) extraction is empty, and then no
file map is produced; an `ok` result implies a non-empty extraction. -/
theorem c9_empty_operation_set (spec : OpenAPISpec) (language : SupportedLanguage)
    (packageName : Option String) (operations : Option (List String)) :
    (extractOperations spec operations = [] →
       generateForOperations spec language packageName operations
         = Except.error "No operations found in the spec")
  ∧ (∀ files, generateForOperations spec language packageName operations
        = Except.ok files → extractOperations spec operations ≠ []) := by
  constructor
  · intro h
    simp [generateForOperations, h]
  · intro files hok hempty
    simp [generateForOperations, hempty] at hok

/-- Witness for C9 at a contract with no paths. -/
theorem c9_empty_operation_set_witness :
    generateForOperations emptySpec SupportedLanguage.java none none
      = Except.error "No operations found in the spec" :=
  (c9_empty_operation_set emptySpec SupportedLanguage.java none none).1 rfl

/-- Claim C10 (confirmed).  The file-map scan contributes nothing for files
whose path ends in `.xml` or `.pom`: dropping them leaves the report
unchanged, and a lone such file reports zero violations whatever its
content. -/
theorem c10_xml_pom_skipped :
    (∀ files : List (String × String),
        validate files =
          validate (files.filter (fun f =>
            !(jsEndsWith f.1 ".xml" || jsEndsWith f.1 ".pom"))))
  ∧ (∀ filePath content : String,
        (jsEndsWith filePath ".xml" || jsEndsWith filePath ".pom") = true →
          validate [(filePath, content)] = []) := by
  constructor
  · exact validate_skips_marked
  · intro fp c h
    unfold validate
    simp only [List.foldl_cons, List.foldl_nil]
    rw [if_pos h]

/-- Witness for C10: a `pom.xml` whose content holds a raw URL that matches
`no-raw-url` with no skip pattern still reports zero violations. -/
theorem c10_xml_pom_skipped_witness :
    validate [("pom.xml", pomUrlLine)] = [] :=
  c10_xml_pom_skipped.2 "pom.xml" pomUrlLine (by decide)

end SpecKit
